import Mathlib

/-!
Verification of the triathlon-merger core (`core.py`, `app.py`) against its
specification.  Times are modelled as integers (seconds since an arbitrary
epoch): every timestamp the Python code manipulates is a timezone-aware
`datetime`, and all operations on them (shifting by a `timedelta`,
subtraction to seconds, ISO/human formatting) factor through the underlying
instant, so an `Int` instant is a faithful carrier.  Numeric payload fields
(`lat`, `lon`, `ele`) are floats in Python; no modelled operation performs
arithmetic on them (they are only copied verbatim), so their carrier is
taken to be `Int` as well.
-/

set_option maxRecDepth 100000

/-- One track sample, mirroring the point dictionaries built by
`parse_gpx`/`parse_tcx`: a timestamp plus optional position, elevation,
heart rate, cadence and power. -/
structure TrackPoint where
  time : Int
  lat : Option Int
  lon : Option Int
  ele : Option Int
  hr : Option Nat
  cad : Option Nat
  pwr : Option Nat
deriving DecidableEq, Repr

/-- A synthetic point holding only a timestamp — the shape of the
two-point brackets `[{"time": ...}, {"time": ...}]` that the assembler
fabricates for inferred transitions (the other keys are simply absent,
which downstream `p.get(...)` reads as `None`). -/
def timeOnly (t : Int) : TrackPoint :=
  { time := t, lat := none, lon := none, ele := none,
    hr := none, cad := none, pwr := none }

/-- The per-file record produced by `cli._read_points` and fed to
`build_plan_from_files`: when the parsed point list is empty, `start` and
`stop` are `None`. -/
structure FileLeg where
  name : String
  points : List TrackPoint
  start : Option Int
  stop : Option Int
  count : Nat
deriving DecidableEq, Repr

/-- A leg whose boundaries are defined (the shape `build_tcx_from_plan`
and `summary_lines_from_plan` actually require: they read `item["start"]`
and `item["stop"]` unconditionally). -/
structure Leg where
  name : String
  points : List TrackPoint
  start : Int
  stop : Int
  count : Nat
deriving DecidableEq, Repr

/-- The plan dictionary assembled by `core.build_plan_from_files`, over
raw file legs. -/
structure RawPlan where
  swim : FileLeg
  bike : FileLeg
  run : FileLeg
  t1_file : Option FileLeg
  t2_file : Option FileLeg
  t1_inferred : Option Int
  t2_inferred : Option Int
deriving DecidableEq, Repr

/-- The plan dictionary as consumed by the assembler and the summary
formatter: all boundary fields defined. -/
structure Plan where
  swim : Leg
  bike : Leg
  run : Leg
  t1_file : Option Leg
  t2_file : Option Leg
  t1_inferred : Option Int
  t2_inferred : Option Int
deriving DecidableEq, Repr

def FileLeg.toLeg? (l : FileLeg) : Option Leg :=
  match l.start, l.stop with
  | some a, some b => some ⟨l.name, l.points, a, b, l.count⟩
  | _, _ => none

/-- View of a raw plan as a defined plan; `none` exactly when some
boundary the assembler would read is undefined (on which the Python
would raise `TypeError`). -/
def RawPlan.toPlan (p : RawPlan) : Option Plan := do
  let s ← p.swim.toLeg?
  let b ← p.bike.toLeg?
  let r ← p.run.toLeg?
  let t1 ← match p.t1_file with
    | none => some none
    | some t => t.toLeg?.map some
  let t2 ← match p.t2_file with
    | none => some none
    | some t => t.toLeg?.map some
  some ⟨s, b, r, t1, t2, p.t1_inferred, p.t2_inferred⟩

/-- Role tags used by the app-side table (`app.collect_roles_from_table`). -/
inductive Role where
  | swim
  | bike
  | run
  | transition
  | ignore
deriving DecidableEq, BEq, Repr

/-- One row handed to `app.build_plan`: a parsed file plus its assigned
role.  Rows reaching `build_plan` have passed the
`r["start"] is not None` filter in `collect_roles_from_table`, so their
boundaries are defined. -/
structure RoleItem where
  role : Role
  name : String
  points : List TrackPoint
  start : Int
  stop : Int
  count : Nat
deriving DecidableEq, Repr

def RoleItem.toLeg (r : RoleItem) : Leg :=
  ⟨r.name, r.points, r.start, r.stop, r.count⟩

/- ----------------- time formatting helpers ----------------- -/

def pad2 (n : Nat) : String :=
  if n < 10 then "0" ++ toString n else toString n

/-- Proleptic-Gregorian civil date from a day count (days since
1970-01-01), the arithmetic underlying `datetime`'s calendar. -/
def civilFromDays (z0 : Int) : Int × Nat × Nat :=
  let z := z0 + 719468
  let era := Int.fdiv z 146097
  let doe := (z - era * 146097).toNat
  let yoe := (doe - doe / 1460 + doe / 36524 - doe / 146096) / 365
  let y := (yoe : Int) + era * 400
  let doy := doe - (365 * yoe + yoe / 4 - yoe / 100)
  let mp := (5 * doy + 2) / 153
  let d := doy - (153 * mp + 2) / 5 + 1
  let m := if mp < 10 then mp + 3 else mp - 9
  (if m ≤ 2 then y + 1 else y, m, d)

/-- `core.fmt_dt_human`: `strftime("%Y-%m-%d %H:%M:%S")` on the instant. -/
def fmt_dt_human (t : Int) : String :=
  let days := Int.fdiv t 86400
  let sod := (t - days * 86400).toNat
  let c := civilFromDays days
  toString c.1 ++ "-" ++ pad2 c.2.1 ++ "-" ++ pad2 c.2.2 ++ " " ++
    pad2 (sod / 3600) ++ ":" ++ pad2 (sod % 3600 / 60) ++ ":" ++ pad2 (sod % 60)

/-- `core.fmt_dur`: `H:MM:SS` when at least one hour, else `M:SS`
(Python `divmod` is floor division, i.e. `ediv`/`emod` for the positive
divisors used here). -/
def fmt_dur (seconds : Int) : String :=
  let s := seconds
  let h := Int.ediv s 3600
  let m0 := Int.emod s 3600
  let m := Int.ediv m0 60
  let s2 := Int.emod m0 60
  if h = 0 then
    toString m ++ ":" ++ pad2 s2.toNat
  else
    toString h ++ ":" ++ pad2 m.toNat ++ ":" ++ pad2 s2.toNat

/-- Python `f"{label:<12}"`: left-justify to width 12 (unchanged when
already longer). -/
def padLabel (s : String) : String :=
  s ++ String.mk (List.replicate (12 - s.length) ' ')

/- ----------------- timeline helpers (core.py) ----------------- -/

/-- `core.rebase`: shift every timestamp so the sequence starts at
`new_start`; on an empty list return `([], new_start, new_start)`. -/
def rebase (points : List TrackPoint) (new_start : Int) :
    List TrackPoint × Int × Int :=
  match points with
  | [] => ([], new_start, new_start)
  | p0 :: rest =>
    let shift := new_start - p0.time
    let out := (p0 :: rest).map (fun p => { p with time := p.time + shift })
    (out, (out.headD p0).time, (out.getLastD p0).time)

/-- `core.infer_gaps`: `(t1, t2)` from leg boundaries, clamped at zero.
The Python subtracts `datetime` fields directly, so an undefined
boundary raises `TypeError`, modelled as `.error`. -/
def infer_gaps (swim bike run : FileLeg) : Except Unit (Int × Int) :=
  match bike.start, swim.stop, run.start, bike.stop with
  | some bs, some ss, some rs, some bstop =>
    .ok (max 0 (bs - ss), max 0 (rs - bstop))
  | _, _, _, _ => .error ()

/-- `core.build_plan_from_files`.  Returns the Python pair
`(plan, err)`; the whole call is wrapped in `Except` because with
`infer_missing` and an undefined boundary the Python raises instead of
returning. -/
def build_plan_from_files (swim bike run t1 t2 : Option FileLeg)
    (infer_missing : Bool) : Except Unit (Option RawPlan × Option String) :=
  match swim, bike, run with
  | some s, some b, some r =>
    if infer_missing then
      match infer_gaps s b r with
      | .error e => .error e
      | .ok (t1_sec, t2_sec) =>
        .ok (some { swim := s, bike := b, run := r, t1_file := t1, t2_file := t2,
                    t1_inferred := if t1.isNone then some t1_sec else none,
                    t2_inferred := if t2.isNone then some t2_sec else none }, none)
    else
      .ok (some { swim := s, bike := b, run := r, t1_file := t1, t2_file := t2,
                  t1_inferred := none, t2_inferred := none }, none)
  | _, _, _ => .ok (none, some "Need Swim, Bike, and Run.")

/-- The first transition row (caller order) whose start falls in the
T1 gap `swim.stop ≤ t.start ≤ bike.start`
(`next((t for t in transitions if ...), None)` in `app.build_plan`). -/
def t1_candidate (roles : List RoleItem) (s b : RoleItem) : Option RoleItem :=
  (roles.filter (fun x => x.role == Role.transition)).find?
    (fun t => decide (s.stop ≤ t.start ∧ t.start ≤ b.start))

/-- The first transition row whose start falls in the T2 gap
`bike.stop ≤ t.start ≤ run.start`. -/
def t2_candidate (roles : List RoleItem) (b r : RoleItem) : Option RoleItem :=
  (roles.filter (fun x => x.role == Role.transition)).find?
    (fun t => decide (b.stop ≤ t.start ∧ t.start ≤ r.start))

/-- `app.build_plan`: topmost row per role wins; a transition file whose
start falls inside the relevant gap is preferred over inference. -/
def build_plan (roles : List RoleItem) (infer_missing : Bool) :
    Option Plan × Option String :=
  let swim := roles.find? (fun x => x.role == Role.swim)
  let bike := roles.find? (fun x => x.role == Role.bike)
  let run := roles.find? (fun x => x.role == Role.run)
  match swim, bike, run with
  | some s, some b, some r =>
    let t1_item := t1_candidate roles s b
    let t2_item := t2_candidate roles b r
    let t1_inf : Option Int :=
      if infer_missing && t1_item.isNone then some (max 0 (b.start - s.stop)) else none
    let t2_inf : Option Int :=
      if infer_missing && t2_item.isNone then some (max 0 (r.start - b.stop)) else none
    (some { swim := s.toLeg, bike := b.toLeg, run := r.toLeg,
            t1_file := t1_item.map RoleItem.toLeg, t2_file := t2_item.map RoleItem.toLeg,
            t1_inferred := t1_inf, t2_inferred := t2_inf }, none)
  | _, _, _ => (none, some "Need at least one Swim, one Bike, and one Run (topmost per role is used).")

/- ----------------- TCX build (core.py) ----------------- -/

def SPORT_MAP (k : String) : String :=
  if k = "swim" then "Swimming"
  else if k = "bike" then "Biking"
  else if k = "run" then "Running"
  else "Other"

/-- One `<Activity>` element as emitted by `make_activity`.  `id` is the
instant written by `dt_to_iso(start)` (that rendering is injective on
instants, so the instant itself is kept); `stopTime` is the stop instant
the assembler passed in (wire-wise it is encoded via `totalTime`). -/
structure Activity where
  sport : String
  id : Int
  startTime : Int
  totalTime : Int
  distance : Option Int
  points : List TrackPoint
  notes : String
  stopTime : Int
deriving DecidableEq, Repr

/-- `core.make_activity` (argument order as in the source; the fixed
`MaximumSpeed`/`Calories`/`Intensity`/`TriggerMethod` fields are
constants and are not modelled). -/
def make_activity (start : Int) (sport label : String) (points : List TrackPoint)
    (stop : Int) (lap_distance_m : Option Int) : Activity :=
  { sport := sport, id := start, startTime := start,
    totalTime := max 0 (stop - start), distance := lap_distance_m,
    points := points, notes := label, stopTime := stop }

/-- The emitted document: activities in emission order plus the
`MultiSportSession` reference chain (first id + chained next ids;
the source appends `dt_to_iso(start)` to `ids` at every emission site,
which is exactly each activity's `Id`). -/
structure Document where
  activities : List Activity
  chain : List Int
deriving DecidableEq, Repr

/-- `core.build_tcx_from_plan` (identical to `app.build_tcx_from_plan`):
verbatim mode keeps original timestamps, compact mode rebases each leg
onto a running cursor. -/
def build_tcx_from_plan (plan : Plan) (compact : Bool) (swim_dist_m : Option Int) :
    Document :=
  let acts :=
    if !compact then
      [make_activity plan.swim.start (SPORT_MAP "swim") "Swim" plan.swim.points
        plan.swim.stop swim_dist_m]
      ++ (match plan.t1_file with
          | some t => [make_activity t.start (SPORT_MAP "transition") "Transition T1"
              t.points t.stop none]
          | none =>
            match plan.t1_inferred with
            | some d =>
              let t1s := plan.swim.stop
              let t1e := t1s + d
              [make_activity t1s (SPORT_MAP "transition") "Transition T1"
                [timeOnly t1s, timeOnly t1e] t1e none]
            | none => [])
      ++ [make_activity plan.bike.start (SPORT_MAP "bike") "Bike" plan.bike.points
          plan.bike.stop none]
      ++ (match plan.t2_file with
          | some t => [make_activity t.start (SPORT_MAP "transition") "Transition T2"
              t.points t.stop none]
          | none =>
            match plan.t2_inferred with
            | some d =>
              let t2s := plan.bike.stop
              let t2e := t2s + d
              [make_activity t2s (SPORT_MAP "transition") "Transition T2"
                [timeOnly t2s, timeOnly t2e] t2e none]
            | none => [])
      ++ [make_activity plan.run.start (SPORT_MAP "run") "Run" plan.run.points
          plan.run.stop none]
    else
      let cursor := plan.swim.start
      let sres := rebase plan.swim.points cursor
      let aSwim := make_activity sres.2.1 (SPORT_MAP "swim") "Swim" sres.1 sres.2.2 swim_dist_m
      let cursor := sres.2.2
      let t1res : List Activity × Int :=
        match plan.t1_file with
        | some t =>
          let tres := rebase t.points cursor
          ([make_activity tres.2.1 (SPORT_MAP "transition") "Transition T1" tres.1 tres.2.2 none],
            tres.2.2)
        | none =>
          match plan.t1_inferred with
          | some d =>
            let t1e := cursor + d
            ([make_activity cursor (SPORT_MAP "transition") "Transition T1"
              [timeOnly cursor, timeOnly t1e] t1e none], t1e)
          | none => ([], cursor)
      let cursor := t1res.2
      let bres := rebase plan.bike.points cursor
      let aBike := make_activity bres.2.1 (SPORT_MAP "bike") "Bike" bres.1 bres.2.2 none
      let cursor := bres.2.2
      let t2res : List Activity × Int :=
        match plan.t2_file with
        | some t =>
          let tres := rebase t.points cursor
          ([make_activity tres.2.1 (SPORT_MAP "transition") "Transition T2" tres.1 tres.2.2 none],
            tres.2.2)
        | none =>
          match plan.t2_inferred with
          | some d =>
            let t2e := cursor + d
            ([make_activity cursor (SPORT_MAP "transition") "Transition T2"
              [timeOnly cursor, timeOnly t2e] t2e none], t2e)
          | none => ([], cursor)
      let cursor := t2res.2
      let rres := rebase plan.run.points cursor
      let aRun := make_activity rres.2.1 (SPORT_MAP "run") "Run" rres.1 rres.2.2 none
      [aSwim] ++ t1res.1 ++ [aBike] ++ t2res.1 ++ [aRun]
  { activities := acts, chain := acts.map (·.id) }

/- ----------------- summary formatter (core.py) ----------------- -/

/-- The (label, start, stop, count) data of one summary line, before
string rendering. -/
structure SummaryEntry where
  label : String
  start : Int
  stop : Int
  count : Option Nat
deriving DecidableEq, Repr

/-- The legs/transitions `summary_lines_from_plan` walks, with the exact
start/stop instants it renders, in line order (same branching and the
same rebase/inference computation as the source). -/
def summary_entries (plan : Plan) (compact : Bool) : List SummaryEntry :=
  if !compact then
    [⟨"Swim", plan.swim.start, plan.swim.stop, some plan.swim.count⟩]
    ++ (match plan.t1_file with
        | some t => [⟨"T1 (file)", t.start, t.stop, some t.count⟩]
        | none =>
          match plan.t1_inferred with
          | some d => [⟨"T1 (inferred)", plan.swim.stop, plan.swim.stop + d, none⟩]
          | none => [])
    ++ [⟨"Bike", plan.bike.start, plan.bike.stop, some plan.bike.count⟩]
    ++ (match plan.t2_file with
        | some t => [⟨"T2 (file)", t.start, t.stop, some t.count⟩]
        | none =>
          match plan.t2_inferred with
          | some d => [⟨"T2 (inferred)", plan.bike.stop, plan.bike.stop + d, none⟩]
          | none => [])
    ++ [⟨"Run", plan.run.start, plan.run.stop, some plan.run.count⟩]
  else
    let cursor := plan.swim.start
    let sres := rebase plan.swim.points cursor
    let eSwim : SummaryEntry := ⟨"Swim", sres.2.1, sres.2.2, some plan.swim.count⟩
    let cursor := sres.2.2
    let t1res : List SummaryEntry × Int :=
      match plan.t1_file with
      | some t =>
        let tres := rebase t.points cursor
        ([⟨"T1 (file)", tres.2.1, tres.2.2, some t.count⟩], tres.2.2)
      | none =>
        match plan.t1_inferred with
        | some d =>
          let t1e := cursor + d
          ([⟨"T1 (inferred)", cursor, t1e, none⟩], t1e)
        | none => ([], cursor)
    let cursor := t1res.2
    let bres := rebase plan.bike.points cursor
    let eBike : SummaryEntry := ⟨"Bike", bres.2.1, bres.2.2, some plan.bike.count⟩
    let cursor := bres.2.2
    let t2res : List SummaryEntry × Int :=
      match plan.t2_file with
      | some t =>
        let tres := rebase t.points cursor
        ([⟨"T2 (file)", tres.2.1, tres.2.2, some t.count⟩], tres.2.2)
      | none =>
        match plan.t2_inferred with
        | some d =>
          let t2e := cursor + d
          ([⟨"T2 (inferred)", cursor, t2e, none⟩], t2e)
        | none => ([], cursor)
    let cursor := t2res.2
    let rres := rebase plan.run.points cursor
    let eRun : SummaryEntry := ⟨"Run", rres.2.1, rres.2.2, some plan.run.count⟩
    [eSwim] ++ t1res.1 ++ [eBike] ++ t2res.1 ++ [eRun]

/-- The string built by the `line(...)` helper inside
`summary_lines_from_plan`: note the duration is rendered with
`divmod(int(dur), 60)` — total minutes and seconds, with no hour field. -/
def renderEntry (e : SummaryEntry) : String :=
  let dur := e.stop - e.start
  let m := Int.ediv dur 60
  let s := (Int.emod dur 60).toNat
  let suffix := match e.count with
    | some c => "  " ++ toString c ++ " trackpoints"
    | none => ""
  padLabel e.label ++ " " ++ fmt_dt_human e.start ++ " → " ++ fmt_dt_human e.stop
    ++ "  [" ++ toString m ++ ":" ++ pad2 s ++ "]" ++ suffix

/-- `core.summary_lines_from_plan`: the human-readable preview lines,
exactly as the source constructs them. -/
def summary_lines_from_plan (plan : Plan) (compact : Bool) : List String :=
  if !compact then
    [renderEntry ⟨"Swim", plan.swim.start, plan.swim.stop, some plan.swim.count⟩]
    ++ (match plan.t1_file with
        | some t => [renderEntry ⟨"T1 (file)", t.start, t.stop, some t.count⟩]
        | none =>
          match plan.t1_inferred with
          | some d => [renderEntry ⟨"T1 (inferred)", plan.swim.stop, plan.swim.stop + d, none⟩]
          | none => [])
    ++ [renderEntry ⟨"Bike", plan.bike.start, plan.bike.stop, some plan.bike.count⟩]
    ++ (match plan.t2_file with
        | some t => [renderEntry ⟨"T2 (file)", t.start, t.stop, some t.count⟩]
        | none =>
          match plan.t2_inferred with
          | some d => [renderEntry ⟨"T2 (inferred)", plan.bike.stop, plan.bike.stop + d, none⟩]
          | none => [])
    ++ [renderEntry ⟨"Run", plan.run.start, plan.run.stop, some plan.run.count⟩]
  else
    let cursor := plan.swim.start
    let sres := rebase plan.swim.points cursor
    let lSwim := renderEntry ⟨"Swim", sres.2.1, sres.2.2, some plan.swim.count⟩
    let cursor := sres.2.2
    let t1res : List String × Int :=
      match plan.t1_file with
      | some t =>
        let tres := rebase t.points cursor
        ([renderEntry ⟨"T1 (file)", tres.2.1, tres.2.2, some t.count⟩], tres.2.2)
      | none =>
        match plan.t1_inferred with
        | some d =>
          let t1e := cursor + d
          ([renderEntry ⟨"T1 (inferred)", cursor, t1e, none⟩], t1e)
        | none => ([], cursor)
    let cursor := t1res.2
    let bres := rebase plan.bike.points cursor
    let lBike := renderEntry ⟨"Bike", bres.2.1, bres.2.2, some plan.bike.count⟩
    let cursor := bres.2.2
    let t2res : List String × Int :=
      match plan.t2_file with
      | some t =>
        let tres := rebase t.points cursor
        ([renderEntry ⟨"T2 (file)", tres.2.1, tres.2.2, some t.count⟩], tres.2.2)
      | none =>
        match plan.t2_inferred with
        | some d =>
          let t2e := cursor + d
          ([renderEntry ⟨"T2 (inferred)", cursor, t2e, none⟩], t2e)
        | none => ([], cursor)
    let cursor := t2res.2
    let rres := rebase plan.run.points cursor
    let lRun := renderEntry ⟨"Run", rres.2.1, rres.2.2, some plan.run.count⟩
    [lSwim] ++ t1res.1 ++ [lBike] ++ t2res.1 ++ [lRun]

/- ----------------- concrete scenario data ----------------- -/

/-- `n` chronological time-only points from `a` to `b` (first exactly
`a`, last exactly `b`). -/
def mkPts (a b : Int) (n : Nat) : List TrackPoint :=
  (List.range n).map (fun i => timeOnly (a + ((b - a) * i) / (n - 1)))

/-- Scenario A swim leg: 06:00:00–06:30:00, 500 points. -/
def swimA : FileLeg := ⟨"swim.tcx", mkPts 21600 23400 500, some 21600, some 23400, 500⟩

/-- Scenario A bike leg: 06:35:00–08:05:00, 500 points. -/
def bikeA : FileLeg := ⟨"bike.gpx", mkPts 23700 29100 500, some 23700, some 29100, 500⟩

/-- Scenario A run leg: 08:10:00–08:50:00, 300 points. -/
def runA : FileLeg := ⟨"run.gpx", mkPts 29400 31800 300, some 29400, some 31800, 300⟩

/-- The raw plan Scenario A's build must produce (both gaps 300 s). -/
def rawPlanA : RawPlan := ⟨swimA, bikeA, runA, none, none, some 300, some 300⟩

/-- Scenario A's plan with defined boundaries. -/
def planA : Plan :=
  ⟨⟨"swim.tcx", swimA.points, 21600, 23400, 500⟩,
   ⟨"bike.gpx", bikeA.points, 23700, 29100, 500⟩,
   ⟨"run.gpx", runA.points, 29400, 31800, 300⟩,
   none, none, some 300, some 300⟩

def legS9 : FileLeg := ⟨"swim.tcx", [timeOnly 0, timeOnly 100], some 0, some 100, 2⟩

def legB9 : FileLeg := ⟨"bike.gpx", [timeOnly 150, timeOnly 200], some 150, some 200, 2⟩

/-- An out-of-order run leg: it starts before the bike stops. -/
def legR9 : FileLeg := ⟨"run.gpx", [timeOnly 80, timeOnly 250], some 80, some 250, 2⟩

/-- A plan with a zero T1 gap, exactly as the plan builder produces it
when `bike.start = swim.stop` (`t1_inferred = max(0, 0) = 0`). -/
def c4plan : Plan :=
  ⟨⟨"swim.tcx", [timeOnly 0, timeOnly 100], 0, 100, 2⟩,
   ⟨"bike.gpx", [timeOnly 100, timeOnly 200], 100, 200, 2⟩,
   ⟨"run.gpx", [timeOnly 250, timeOnly 300], 250, 300, 2⟩,
   none, none, some 0, some 50⟩

/-- A plan whose swim lasts 1 h 30 min (06:00:00–07:30:00). -/
def c3plan : Plan :=
  ⟨⟨"swim.tcx", [timeOnly 21600, timeOnly 27000], 21600, 27000, 2⟩,
   ⟨"bike.gpx", [timeOnly 27000, timeOnly 27600], 27000, 27600, 2⟩,
   ⟨"run.gpx", [timeOnly 27600, timeOnly 28200], 27600, 28200, 2⟩,
   none, none, none, none⟩

/-- The line the claimed duration format would require: identical to the
summary rendering except that the bracketed duration is `fmt_dur`
(`H:MM:SS` when at least an hour, else `M:SS`). -/
def lineWithClaimedDur (label : String) (start stop : Int) (count : Option Nat) : String :=
  padLabel label ++ " " ++ fmt_dt_human start ++ " → " ++ fmt_dt_human stop
    ++ "  [" ++ fmt_dur (stop - start) ++ "]"
    ++ (match count with
        | some c => "  " ++ toString c ++ " trackpoints"
        | none => "")

/-- A present swim leg parsed from an empty file: zero points, undefined
start/stop — the shape `cli._read_points` produces for an empty input. -/
def swimEmptyB : FileLeg := ⟨"swim.tcx", [], none, none, 0⟩

def roleSwimC : RoleItem :=
  ⟨Role.swim, "swim.tcx", [timeOnly 21600, timeOnly 23400], 21600, 23400, 2⟩

/-- A transition recording whose points span inside `[swim.stop, bike.start]`. -/
def roleT1C : RoleItem :=
  ⟨Role.transition, "t1.gpx", [timeOnly 23450, timeOnly 23650], 23450, 23650, 2⟩

def roleBikeC : RoleItem :=
  ⟨Role.bike, "bike.gpx", [timeOnly 23700, timeOnly 29100], 23700, 29100, 2⟩

def roleRunC : RoleItem :=
  ⟨Role.run, "run.gpx", [timeOnly 29400, timeOnly 31800], 29400, 31800, 2⟩

def rolesC : List RoleItem := [roleSwimC, roleT1C, roleBikeC, roleRunC]

def c10swim : FileLeg := ⟨"swim.tcx", [timeOnly 0, timeOnly 100], some 0, some 100, 2⟩

/-- Bike starts exactly when the swim stops: zero T1 gap. -/
def c10bike : FileLeg := ⟨"bike.gpx", [timeOnly 100, timeOnly 200], some 100, some 200, 2⟩

/-- Run starts before the bike stops: negative T2 gap, clamped to 0. -/
def c10run : FileLeg := ⟨"run.gpx", [timeOnly 150, timeOnly 250], some 150, some 250, 2⟩

/- ----------------- helper lemmas ----------------- -/

theorem getLastD_map (f : TrackPoint → TrackPoint) :
    ∀ (l : List TrackPoint) (d : TrackPoint),
      (l.map f).getLastD (f d) = f (l.getLastD d) := by
  intro l
  induction l with
  | nil => intro d; rfl
  | cons q tl ih =>
    intro d
    simp only [List.map_cons, List.getLastD_cons]
    exact ih q

/-- C7: `rebase(points, newStart)` on a non-empty list shifts every
point's timestamp by the constant `shift = newStart − points[0].time`,
leaves every other field of every point unchanged, and returns the
shifted first and last timestamps as start/stop; on the empty list it
returns `([], newStart, newStart)` rather than failing. -/
theorem c7_rebase_spec :
    (∀ t : Int, rebase [] t = ([], t, t)) ∧
    (∀ (P : List TrackPoint) (t : Int) (p0 : TrackPoint) (rest : List TrackPoint),
      P = p0 :: rest →
      (rebase P t).1.length = P.length ∧
      (∀ i : Nat,
        ((rebase P t).1[i]?).map (·.time)
          = (P[i]?).map (fun p => p.time + (t - p0.time)) ∧
        ((rebase P t).1[i]?).map (·.lat) = (P[i]?).map (·.lat) ∧
        ((rebase P t).1[i]?).map (·.lon) = (P[i]?).map (·.lon) ∧
        ((rebase P t).1[i]?).map (·.ele) = (P[i]?).map (·.ele) ∧
        ((rebase P t).1[i]?).map (·.hr) = (P[i]?).map (·.hr) ∧
        ((rebase P t).1[i]?).map (·.cad) = (P[i]?).map (·.cad) ∧
        ((rebase P t).1[i]?).map (·.pwr) = (P[i]?).map (·.pwr)) ∧
      (rebase P t).2.1 = p0.time + (t - p0.time) ∧
      (rebase P t).2.2 = (P.getLastD p0).time + (t - p0.time)) := by
  constructor
  · intro t; rfl
  · intro P t p0 rest h
    subst h
    refine ⟨by simp [rebase], ?_, by simp [rebase], ?_⟩
    · intro i
      refine ⟨?_, ?_, ?_, ?_, ?_, ?_, ?_⟩ <;>
        (simp only [rebase, List.getElem?_map, Option.map_map]
         cases (p0 :: rest)[i]? <;> rfl)
    · show ((((p0 :: rest).map
          (fun p => { p with time := p.time + (t - p0.time) })).getLastD p0)).time = _
      rw [List.map_cons, List.getLastD_cons, List.getLastD_cons]
      rw [getLastD_map (fun p => { p with time := p.time + (t - p0.time) }) rest p0]

/-- C7 witness: a concrete two-point list rebased to 50. -/
theorem c7_rebase_spec_witness :
    (rebase [timeOnly 10, timeOnly 30] 50).1.length
        = [timeOnly 10, timeOnly 30].length ∧
    (rebase [timeOnly 10, timeOnly 30] 50).2.1 = (10 : Int) + (50 - 10) ∧
    (rebase [timeOnly 10, timeOnly 30] 50).2.2
        = ([timeOnly 10, timeOnly 30].getLastD (timeOnly 10)).time + (50 - 10) := by
  obtain ⟨-, h⟩ := c7_rebase_spec
  obtain ⟨h1, -, h3, h4⟩ := h [timeOnly 10, timeOnly 30] 50 (timeOnly 10) [timeOnly 30] rfl
  exact ⟨h1, h3, h4⟩

/-- C8: rebasing twice composes — the sequence returned by
`rebase(rebase(P, t0).points, t1)` has start `t1`, for every point list
`P` (including the empty one) and all instants `t0`, `t1`. -/
theorem c8_rebase_compose (P : List TrackPoint) (t0 t1 : Int) :
    (rebase (rebase P t0).1 t1).2.1 = t1 := by
  cases P with
  | nil => rfl
  | cons p rest => simp [rebase]

/-- C9: the inferred transition durations are `max(0, nextLeg.start −
prevLeg.stop)` for each slot, hence never negative — even when
`nextLeg.start < prevLeg.stop`. -/
theorem c9_infer_gaps_clamped (sl bl rl : FileLeg) (ss bs bstop rs : Int)
    (h1 : sl.stop = some ss) (h2 : bl.start = some bs) (h3 : bl.stop = some bstop)
    (h4 : rl.start = some rs) :
    infer_gaps sl bl rl = .ok (max 0 (bs - ss), max 0 (rs - bstop)) ∧
    0 ≤ max 0 (bs - ss) ∧ 0 ≤ max 0 (rs - bstop) := by
  refine ⟨?_, le_max_left _ _, le_max_left _ _⟩
  simp [infer_gaps, h1, h2, h3, h4]

/-- C9 witness: with `run.start = 80 < 200 = bike.stop` the T2 gap is
clamped to zero. -/
theorem c9_infer_gaps_clamped_witness :
    infer_gaps legS9 legB9 legR9 = .ok (max 0 (150 - 100), max 0 (80 - 200)) ∧
    0 ≤ max 0 ((150 : Int) - 100) ∧ 0 ≤ max 0 ((80 : Int) - 200) :=
  c9_infer_gaps_clamped legS9 legB9 legR9 100 150 200 80 rfl rfl rfl rfl

/-- C1: for every plan and both timing modes, the start/stop instants the
summary formatter renders for each included leg/transition are exactly the
start/stop instants of the corresponding Activity emitted by the
assembler; and the rendered lines are precisely the renderings of those
entries. -/
theorem c1_summary_matches_assembler :
    ∀ (plan : Plan) (compact : Bool) (dist : Option Int),
      (summary_entries plan compact).map (fun e => (e.start, e.stop))
        = (build_tcx_from_plan plan compact dist).activities.map
            (fun a => (a.startTime, a.stopTime)) ∧
      summary_lines_from_plan plan compact
        = (summary_entries plan compact).map renderEntry := by
  intro plan compact dist
  obtain ⟨s, b, r, t1f, t2f, t1i, t2i⟩ := plan
  cases compact <;> cases t1f <;> cases t2f <;> cases t1i <;> cases t2i <;>
    exact ⟨rfl, rfl⟩

/-- C6: in verbatim mode every included leg's original points (hence
timestamps) appear unchanged in the document, an inferred transition is
exactly the two-point bracket `[prevLeg.stop, prevLeg.stop+duration]`;
and Scenario A (no transition files, `inferMissing`) yields
`t1_inferred = t2_inferred = 300 s` and a five-Activity verbatim document
whose T1/T2 hold exactly 2 synthetic points. -/
theorem c6_verbatim_preserves_points :
    (∀ (plan : Plan) (dist : Option Int),
      (build_tcx_from_plan plan false dist).activities.map (·.points)
        = [plan.swim.points]
          ++ (match plan.t1_file, plan.t1_inferred with
              | some t, _ => [t.points]
              | none, some d => [[timeOnly plan.swim.stop, timeOnly (plan.swim.stop + d)]]
              | none, none => [])
          ++ [plan.bike.points]
          ++ (match plan.t2_file, plan.t2_inferred with
              | some t, _ => [t.points]
              | none, some d => [[timeOnly plan.bike.stop, timeOnly (plan.bike.stop + d)]]
              | none, none => [])
          ++ [plan.run.points]) ∧
    build_plan_from_files (some swimA) (some bikeA) (some runA) none none true
      = .ok (some rawPlanA, none) ∧
    rawPlanA.toPlan = some planA ∧
    swimA.points.length = 500 ∧ bikeA.points.length = 500 ∧ runA.points.length = 300 ∧
    (build_tcx_from_plan planA false none).activities.map (·.notes)
      = ["Swim", "Transition T1", "Bike", "Transition T2", "Run"] ∧
    (build_tcx_from_plan planA false none).activities.map (·.points.length)
      = [500, 2, 500, 2, 300] := by
  refine ⟨?_, rfl, rfl, rfl, rfl, rfl, rfl, rfl⟩
  intro plan dist
  obtain ⟨s, b, r, t1f, t2f, t1i, t2i⟩ := plan
  cases t1f <;> cases t2f <;> cases t1i <;> cases t2i <;> rfl

/-- C4 counterexample: with a zero-width inferred T1, the T1 Activity's
identity (instant 100) collides with the Bike Activity's identity, so
the identities are not pairwise distinct. -/
theorem c4_counterexample :
    (build_tcx_from_plan c4plan false none).chain = [0, 100, 100, 200, 250] ∧
    ¬ (build_tcx_from_plan c4plan false none).chain.Nodup :=
  ⟨rfl, by decide⟩

/-- C4 amended: every Activity's identity is its own start instant and
the session chain lists exactly those identities; they are pairwise
distinct whenever the emitted start instants are strictly increasing
(which zero-width transitions violate). -/
theorem c4_identity_is_start :
    ∀ (plan : Plan) (compact : Bool) (dist : Option Int),
      (build_tcx_from_plan plan compact dist).activities.map (·.id)
        = (build_tcx_from_plan plan compact dist).activities.map (·.startTime) ∧
      (build_tcx_from_plan plan compact dist).chain
        = (build_tcx_from_plan plan compact dist).activities.map (·.id) ∧
      (((build_tcx_from_plan plan compact dist).activities.map (·.startTime)).Pairwise
          (· < ·) →
        (build_tcx_from_plan plan compact dist).chain.Nodup) := by
  intro plan compact dist
  have hid : (build_tcx_from_plan plan compact dist).activities.map (·.id)
      = (build_tcx_from_plan plan compact dist).activities.map (·.startTime) := by
    obtain ⟨s, b, r, t1f, t2f, t1i, t2i⟩ := plan
    cases compact <;> cases t1f <;> cases t2f <;> cases t1i <;> cases t2i <;> rfl
  refine ⟨hid, rfl, ?_⟩
  intro h
  show ((build_tcx_from_plan plan compact dist).activities.map (·.id)).Nodup
  rw [hid]
  exact h.imp (fun hab => ne_of_lt hab)

/-- C4 witness: on Scenario A's plan the verbatim starts are strictly
increasing, so the identities are pairwise distinct. -/
theorem c4_identity_is_start_witness :
    (build_tcx_from_plan planA false none).chain.Nodup :=
  (c4_identity_is_start planA false none).2.2 (by decide)

/-- C3 counterexample: a 90-minute swim is rendered `[90:00]`, not the
claimed `[1:30:00]` — the summary formatter never switches to an
`H:MM:SS` form. -/
theorem c3_counterexample :
    (summary_lines_from_plan c3plan false).head?
      = some "Swim         1970-01-01 06:00:00 → 1970-01-01 07:30:00  [90:00]  2 trackpoints" ∧
    (summary_lines_from_plan c3plan false).head?
      ≠ some (lineWithClaimedDur "Swim" 21600 27000 (some 2)) :=
  ⟨by decide, by decide⟩

/-- C3 amended: every summary line renders its elapsed duration as
`M:SS` where `M` is the total number of whole minutes (`(stop−start)
div 60`, floor semantics) and `SS` is zero-padded — with no hour field,
even for durations of an hour or more. -/
theorem c3_duration_format :
    ∀ (plan : Plan) (compact : Bool),
      summary_lines_from_plan plan compact
        = (summary_entries plan compact).map (fun e =>
            padLabel e.label ++ " " ++ fmt_dt_human e.start ++ " → " ++ fmt_dt_human e.stop
              ++ "  [" ++ toString (Int.ediv (e.stop - e.start) 60) ++ ":"
              ++ pad2 (Int.emod (e.stop - e.start) 60).toNat ++ "]"
              ++ (match e.count with
                  | some c => "  " ++ toString c ++ " trackpoints"
                  | none => "")) := by
  intro plan compact
  obtain ⟨s, b, r, t1f, t2f, t1i, t2i⟩ := plan
  cases compact <;> cases t1f <;> cases t2f <;> cases t1i <;> cases t2i <;> rfl

/-- C2 counterexample: a present swim leg with zero points (no
start/stop) is not rejected — with inference off, `build_plan_from_files`
returns a plan and no error instead of failing with
`MissingRequiredLeg`. -/
theorem c2_counterexample :
    swimEmptyB.points = [] ∧ swimEmptyB.start = none ∧ swimEmptyB.count = 0 ∧
    build_plan_from_files (some swimEmptyB) (some bikeA) (some runA) none none false
      = .ok (some ⟨swimEmptyB, bikeA, runA, none, none, none, none⟩, none) :=
  ⟨rfl, rfl, rfl, rfl⟩

/-- C2 amended: `build_plan_from_files` reports `MissingRequiredLeg`
exactly when one of swim/bike/run is absent (`None`); a present
zero-point leg is not itself rejected — with inference off the builder
accepts it into a plan, and with inference on the undefined boundary
makes the gap arithmetic fault instead of producing the missing-leg
error. -/
theorem c2_missing_leg_behaviour :
    (∀ (s b r t1 t2 : Option FileLeg) (im : Bool),
      build_plan_from_files s b r t1 t2 im
          = .ok (none, some "Need Swim, Bike, and Run.")
        ↔ (s = none ∨ b = none ∨ r = none)) ∧
    (∀ (sl bl rl : FileLeg) (t1 t2 : Option FileLeg),
      build_plan_from_files (some sl) (some bl) (some rl) t1 t2 false
        = .ok (some ⟨sl, bl, rl, t1, t2, none, none⟩, none)) ∧
    (∀ (sl bl rl : FileLeg) (t1 t2 : Option FileLeg),
      sl.stop = none →
      build_plan_from_files (some sl) (some bl) (some rl) t1 t2 true = .error ()) := by
  refine ⟨?_, ?_, ?_⟩
  · intro s b r t1 t2 im
    constructor
    · intro h
      by_contra hc
      push_neg at hc
      obtain ⟨hs, hb, hr⟩ := hc
      obtain ⟨sl, rfl⟩ := Option.ne_none_iff_exists'.mp hs
      obtain ⟨bl, rfl⟩ := Option.ne_none_iff_exists'.mp hb
      obtain ⟨rl, rfl⟩ := Option.ne_none_iff_exists'.mp hr
      cases im with
      | false => simp [build_plan_from_files] at h
      | true =>
        cases hg : infer_gaps sl bl rl with
        | error e => simp [build_plan_from_files, hg] at h
        | ok p => simp [build_plan_from_files, hg] at h
    · intro h
      rcases h with h | h | h <;> subst h
      · rfl
      · cases s <;> rfl
      · cases s with
        | none => rfl
        | some sl => cases b <;> rfl
  · intro sl bl rl t1 t2; rfl
  · intro sl bl rl t1 t2 h
    cases hbs : bl.start with
    | none => simp [build_plan_from_files, infer_gaps, hbs]
    | some bs => simp [build_plan_from_files, infer_gaps, hbs, h]

/-- C2 witness: with inference on, the empty swim leg makes the builder
fault (Python `TypeError`) rather than report the missing-leg error. -/
theorem c2_missing_leg_behaviour_witness :
    build_plan_from_files (some swimEmptyB) (some bikeA) (some runA) none none true
      = .error () :=
  c2_missing_leg_behaviour.2.2 swimEmptyB bikeA runA none none rfl

/-- C5: for each transition slot, a qualifying transition leg (start in
the relevant gap) is used verbatim as `t1_file`/`t2_file` and the
inferred duration stays unset even when `inferMissing` is true; an
inferred duration is computed only when no leg matches and
`inferMissing` is true; otherwise the slot is left entirely empty. -/
theorem c5_transition_slots :
    ∀ (roles : List RoleItem) (im : Bool) (s b r : RoleItem),
      roles.find? (fun x => x.role == Role.swim) = some s →
      roles.find? (fun x => x.role == Role.bike) = some b →
      roles.find? (fun x => x.role == Role.run) = some r →
      ∃ plan : Plan,
        build_plan roles im = (some plan, none) ∧
        plan.swim = s.toLeg ∧ plan.bike = b.toLeg ∧ plan.run = r.toLeg ∧
        plan.t1_file = (t1_candidate roles s b).map RoleItem.toLeg ∧
        plan.t2_file = (t2_candidate roles b r).map RoleItem.toLeg ∧
        ((t1_candidate roles s b).isSome → plan.t1_inferred = none) ∧
        (t1_candidate roles s b = none → im = true →
          plan.t1_inferred = some (max 0 (b.start - s.stop))) ∧
        (t1_candidate roles s b = none → im = false → plan.t1_inferred = none) ∧
        ((t2_candidate roles b r).isSome → plan.t2_inferred = none) ∧
        (t2_candidate roles b r = none → im = true →
          plan.t2_inferred = some (max 0 (r.start - b.stop))) ∧
        (t2_candidate roles b r = none → im = false → plan.t2_inferred = none) := by
  intro roles im s b r hs hb hr
  have hmain : build_plan roles im = (some
      { swim := s.toLeg, bike := b.toLeg, run := r.toLeg,
        t1_file := (t1_candidate roles s b).map RoleItem.toLeg,
        t2_file := (t2_candidate roles b r).map RoleItem.toLeg,
        t1_inferred := if im && (t1_candidate roles s b).isNone
          then some (max 0 (b.start - s.stop)) else none,
        t2_inferred := if im && (t2_candidate roles b r).isNone
          then some (max 0 (r.start - b.stop)) else none }, none) := by
    unfold build_plan
    rw [hs, hb, hr]
  refine ⟨_, hmain, rfl, rfl, rfl, rfl, rfl, ?_, ?_, ?_, ?_, ?_, ?_⟩
  · intro h1
    cases ht : t1_candidate roles s b with
    | none => rw [ht] at h1; simp at h1
    | some t => simp [ht]
  · intro h1 h2; subst h2; simp [h1]
  · intro h1 h2; subst h2; simp
  · intro h1
    cases ht : t2_candidate roles b r with
    | none => rw [ht] at h1; simp at h1
    | some t => simp [ht]
  · intro h1 h2; subst h2; simp [h1]
  · intro h1 h2; subst h2; simp

/-- C5 witness (Scenario C): the qualifying T1 file is preferred over
inference even with `inferMissing = true` (`t1_inferred` stays unset),
while the unmatched T2 slot is inferred. -/
theorem c5_transition_slots_witness :
    ∃ plan : Plan,
      build_plan rolesC true = (some plan, none) ∧
      plan.t1_file = some roleT1C.toLeg ∧ plan.t1_inferred = none ∧
      plan.t2_file = none ∧ plan.t2_inferred = some (max 0 (29400 - 29100)) := by
  obtain ⟨plan, hmain, -, -, -, h1f, h2f, h1some, -, -, -, h2inf, -⟩ :=
    c5_transition_slots rolesC true roleSwimC roleBikeC roleRunC rfl rfl rfl
  refine ⟨plan, hmain, ?_, ?_, ?_, ?_⟩
  · rw [h1f]; rfl
  · exact h1some (by decide)
  · rw [h2f]; rfl
  · exact h2inf (by decide) rfl

/-- C10: with `inferMissing` and no matched transition leg, a slot is
never left empty — the inferred duration is set even when the gap
clamps to zero, and the document then contains a zero-total-time
transition Activity holding two synthetic points with identical
timestamps, in both timing modes. -/
theorem c10_zero_gap_transition (sl bl rl : FileLeg) (ss sstop bs bstop rs rstop : Int)
    (compact : Bool)
    (h1 : sl.start = some ss) (h2 : sl.stop = some sstop)
    (h3 : bl.start = some bs) (h4 : bl.stop = some bstop)
    (h5 : rl.start = some rs) (h6 : rl.stop = some rstop) :
    ∃ (raw : RawPlan) (plan : Plan),
      build_plan_from_files (some sl) (some bl) (some rl) none none true
        = .ok (some raw, none) ∧
      raw.t1_inferred = some (max 0 (bs - sstop)) ∧
      raw.t2_inferred = some (max 0 (rs - bstop)) ∧
      raw.toPlan = some plan ∧
      (bs ≤ sstop → ∃ t : Int,
        ((build_tcx_from_plan plan compact none).activities)[1]?
          = some ⟨"Other", t, t, 0, none, [timeOnly t, timeOnly t], "Transition T1", t⟩) ∧
      (rs ≤ bstop → ∃ t : Int,
        ((build_tcx_from_plan plan compact none).activities)[3]?
          = some ⟨"Other", t, t, 0, none, [timeOnly t, timeOnly t], "Transition T2", t⟩) := by
  have hg : infer_gaps sl bl rl = .ok (max 0 (bs - sstop), max 0 (rs - bstop)) := by
    simp [infer_gaps, h2, h3, h4, h5]
  refine ⟨⟨sl, bl, rl, none, none, some (max 0 (bs - sstop)), some (max 0 (rs - bstop))⟩,
    ⟨⟨sl.name, sl.points, ss, sstop, sl.count⟩,
     ⟨bl.name, bl.points, bs, bstop, bl.count⟩,
     ⟨rl.name, rl.points, rs, rstop, rl.count⟩,
     none, none, some (max 0 (bs - sstop)), some (max 0 (rs - bstop))⟩,
    ?_, rfl, rfl, ?_, ?_, ?_⟩
  · simp [build_plan_from_files, hg]
  · simp [RawPlan.toPlan, FileLeg.toLeg?, h1, h2, h3, h4, h5, h6]
  · intro hle
    have hz : max 0 (bs - sstop) = 0 := max_eq_left (by omega)
    rw [hz]
    cases compact with
    | false =>
      exact ⟨sstop, by simp [build_tcx_from_plan, make_activity, SPORT_MAP, timeOnly]⟩
    | true =>
      exact ⟨(rebase sl.points ss).2.2,
        by simp [build_tcx_from_plan, make_activity, SPORT_MAP, timeOnly]⟩
  · intro hle
    have hz : max 0 (rs - bstop) = 0 := max_eq_left (by omega)
    rw [hz]
    cases compact with
    | false =>
      exact ⟨bstop, by simp [build_tcx_from_plan, make_activity, SPORT_MAP, timeOnly]⟩
    | true =>
      exact ⟨(rebase bl.points ((rebase sl.points ss).2.2 + max 0 (bs - sstop))).2.2,
        by simp [build_tcx_from_plan, make_activity, SPORT_MAP, timeOnly]⟩

/-- C10 witness: zero and negative gaps still produce inferred
durations (0) and zero-width two-point transition Activities. -/
theorem c10_zero_gap_transition_witness :
    ∃ (raw : RawPlan) (plan : Plan),
      build_plan_from_files (some c10swim) (some c10bike) (some c10run) none none true
        = .ok (some raw, none) ∧
      raw.t1_inferred = some 0 ∧ raw.t2_inferred = some 0 ∧
      raw.toPlan = some plan ∧
      (∃ t : Int,
        ((build_tcx_from_plan plan false none).activities)[1]?
          = some ⟨"Other", t, t, 0, none, [timeOnly t, timeOnly t], "Transition T1", t⟩) ∧
      (∃ t : Int,
        ((build_tcx_from_plan plan false none).activities)[3]?
          = some ⟨"Other", t, t, 0, none, [timeOnly t, timeOnly t], "Transition T2", t⟩) := by
  obtain ⟨raw, plan, hb, ht1, ht2, htp, hT1, hT2⟩ :=
    c10_zero_gap_transition c10swim c10bike c10run 0 100 100 200 150 250 false
      rfl rfl rfl rfl rfl rfl
  refine ⟨raw, plan, hb, ?_, ?_, htp, hT1 (by omega), hT2 (by omega)⟩
  · rw [ht1]; rfl
  · rw [ht2]; rfl
